import Mathlib

/-!
Shallow embedding of the pathway routing and workflow code of the
nhs-complaints-navigator repository.

Sources embedded here:
* js/router.js — the `PATHWAYS` catalog, `getPathway`, `adjustForStepsTaken`.
* js/chat.js — the application controller state and `handleConfirmSummary`.
* js/intake.js — `extractFacts`.
* the deadline-calculator code embedded in docs/DPIA.md — `UK_BANK_HOLIDAYS`
  and `addWorkingDays`.

Modelling conventions: JavaScript strings are `String`; a value that may be
`null`/`undefined` is an `Option`; machine integers do not occur (all
arithmetic is small-natural calendar arithmetic).  Catalog fields that no
embedded function reads (description, timeLimit, tips, contact data, ...)
are elided from the structures; the fields that the embedded logic reads
(`steps`, step `name`, step `current`, and template identity via `title`)
are kept verbatim.
-/

namespace Navigator

/-- JavaScript `String.prototype.toLowerCase` restricted to the ASCII
letters that occur in the keyword tables of router.js. -/
def jsToLowerCase (s : String) : String :=
  String.mk (s.toList.map Char.toLower)

/-- Containment of `pat` in `l`, as in JavaScript `String.prototype.includes`. -/
def listContainsSub (pat : List Char) : List Char → Bool
  | [] => pat == []
  | c :: rest => pat.isPrefixOf (c :: rest) || listContainsSub pat rest

/-- JavaScript `s.includes(pat)`. -/
def strContains (s pat : String) : Bool :=
  listContainsSub pat.toList s.toList

/-- One step of a pathway (router.js `PathwayStep`).  A JS step with no
`current` field is embedded with `current := false` (the field is only
ever read for truthiness). -/
structure Step where
  name : String
  current : Bool
deriving DecidableEq

/-- A catalog pathway (router.js `Pathway`), restricted to the fields the
embedded logic reads. -/
structure Pathway where
  title : String
  steps : List Step
deriving DecidableEq

def nhs_trust : Pathway :=
  { title := "NHS Hospital/Trust Complaint",
    steps :=
      [{ name := "PALS (Patient Advice & Liaison Service)", current := true },
      { name := "Formal Complaint to the Trust", current := false },
      { name := "Parliamentary and Health Service Ombudsman (PHSO)", current := false }] }

def gp : Pathway :=
  { title := "GP Surgery Complaint",
    steps :=
      [{ name := "Complain to the GP Practice", current := true },
      { name := "NHS Integrated Care Board (ICB)", current := false },
      { name := "Parliamentary and Health Service Ombudsman (PHSO)", current := false }] }

def social_care : Pathway :=
  { title := "Social Care Complaint",
    steps :=
      [{ name := "Complain to the Care Provider", current := true },
      { name := "Local Authority Complaint", current := false },
      { name := "Local Government & Social Care Ombudsman (LGSCO)", current := false }] }

def council : Pathway :=
  { title := "Council Services Complaint",
    steps :=
      [{ name := "Contact the Service Directly", current := true },
      { name := "Council Complaints Procedure (Stage 1)", current := false },
      { name := "Council Complaints Procedure (Stage 2)", current := false },
      { name := "Local Government & Social Care Ombudsman (LGSCO)", current := false }] }

def police : Pathway :=
  { title := "Police Complaint",
    steps :=
      [{ name := "Complain to the Police Force", current := true },
      { name := "Independent Office for Police Conduct (IOPC)", current := false }] }

def school : Pathway :=
  { title := "School Complaint",
    steps :=
      [{ name := "Raise Informally with Staff", current := true },
      { name := "Formal Complaint to the Headteacher", current := false },
      { name := "Governing Body / Academy Trust", current := false },
      { name := "Department for Education / Local Government Ombudsman", current := false }] }

def dwp_decision : Pathway :=
  { title := "DWP Benefits Decision Challenge",
    steps :=
      [{ name := "Request Mandatory Reconsideration", current := true },
      { name := "Appeal to the First-tier Tribunal", current := false }] }

def dwp_service : Pathway :=
  { title := "DWP Service Complaint",
    steps :=
      [{ name := "DWP Complaints Procedure", current := true },
      { name := "Independent Case Examiner (ICE)", current := false },
      { name := "Parliamentary and Health Service Ombudsman (PHSO)", current := false }] }

def dwp : Pathway :=
  { title := "DWP Benefits Complaint",
    steps :=
      [{ name := "Mandatory Reconsideration (for decision challenges)", current := true },
      { name := "Appeal to the Tribunal (for decision challenges)", current := false },
      { name := "DWP Complaints Procedure (for service issues)", current := false },
      { name := "Independent Case Examiner / PHSO", current := false }] }

def hmrc : Pathway :=
  { title := "HMRC Complaint",
    steps :=
      [{ name := "HMRC Complaints Process (Tier 1)", current := true },
      { name := "HMRC Tier 2 Review", current := false },
      { name := "The Adjudicator\x27s Office", current := false },
      { name := "Parliamentary and Health Service Ombudsman (PHSO)", current := false }] }

def nhs_trust_scotland : Pathway :=
  { title := "NHS Scotland Complaint",
    steps :=
      [{ name := "Formal Complaint to the NHS Board", current := true },
      { name := "Scottish Public Services Ombudsman (SPSO)", current := false }] }

def gp_scotland : Pathway :=
  { title := "GP Surgery Complaint (Scotland)",
    steps :=
      [{ name := "Complain to the GP Practice", current := true },
      { name := "Scottish Public Services Ombudsman (SPSO)", current := false }] }

def council_scotland : Pathway :=
  { title := "Council Services Complaint (Scotland)",
    steps :=
      [{ name := "Council Complaints (Stage 1 — Frontline Resolution)", current := true },
      { name := "Council Complaints (Stage 2 — Investigation)", current := false },
      { name := "Scottish Public Services Ombudsman (SPSO)", current := false }] }

def police_scotland : Pathway :=
  { title := "Police Scotland Complaint",
    steps :=
      [{ name := "Complain to Police Scotland", current := true },
      { name := "Police Investigations & Review Commissioner (PIRC)", current := false }] }

def social_care_scotland : Pathway :=
  { title := "Social Care Complaint (Scotland)",
    steps :=
      [{ name := "Complain to the Care Provider", current := true },
      { name := "Local Authority Social Work Complaints", current := false },
      { name := "Scottish Public Services Ombudsman (SPSO)", current := false }] }

def nhs_trust_wales : Pathway :=
  { title := "NHS Wales Complaint",
    steps :=
      [{ name := "Formal Concern to the Health Board (Putting Things Right)", current := true },
      { name := "Public Services Ombudsman for Wales (PSOW)", current := false }] }

def gp_wales : Pathway :=
  { title := "GP Surgery Complaint (Wales)",
    steps :=
      [{ name := "Complain to the GP Practice or Health Board", current := true },
      { name := "Public Services Ombudsman for Wales (PSOW)", current := false }] }

def council_wales : Pathway :=
  { title := "Council Services Complaint (Wales)",
    steps :=
      [{ name := "Council Complaints (Stage 1 — Informal/Early Resolution)", current := true },
      { name := "Council Complaints (Stage 2 — Formal Investigation)", current := false },
      { name := "Public Services Ombudsman for Wales (PSOW)", current := false }] }

def police_wales : Pathway :=
  { title := "Police Complaint (Wales)",
    steps :=
      [{ name := "Complain to the Police Force", current := true },
      { name := "Independent Office for Police Conduct (IOPC)", current := false }] }

def social_care_wales : Pathway :=
  { title := "Social Care Complaint (Wales)",
    steps :=
      [{ name := "Complain to the Care Provider", current := true },
      { name := "Local Authority Social Services Complaints", current := false },
      { name := "Public Services Ombudsman for Wales (PSOW)", current := false }] }

def nhs_trust_ni : Pathway :=
  { title := "Health & Social Care Complaint (Northern Ireland)",
    steps :=
      [{ name := "Formal Complaint to the HSC Trust", current := true },
      { name := "Northern Ireland Public Services Ombudsman (NIPSO)", current := false }] }

def gp_ni : Pathway :=
  { title := "GP Surgery Complaint (Northern Ireland)",
    steps :=
      [{ name := "Complain to the GP Practice", current := true },
      { name := "Northern Ireland Public Services Ombudsman (NIPSO)", current := false }] }

def council_ni : Pathway :=
  { title := "Council Services Complaint (Northern Ireland)",
    steps :=
      [{ name := "Council Complaints Procedure", current := true },
      { name := "Northern Ireland Public Services Ombudsman (NIPSO)", current := false }] }

def police_ni : Pathway :=
  { title := "PSNI Complaint (Northern Ireland)",
    steps :=
      [{ name := "Police Ombudsman for Northern Ireland", current := true }] }

def social_care_ni : Pathway :=
  { title := "Social Care Complaint (Northern Ireland)",
    steps :=
      [{ name := "Complain to the Care Provider or HSC Trust", current := true },
      { name := "Northern Ireland Public Services Ombudsman (NIPSO)", current := false }] }

def other_gov : Pathway :=
  { title := "Government Body Complaint",
    steps :=
      [{ name := "Department\x27s Own Complaints Procedure", current := true },
      { name := "Parliamentary and Health Service Ombudsman (PHSO)", current := false }] }

def PATHWAYS : List (String × Pathway) :=
  [ ("nhs_trust", nhs_trust),
    ("gp", gp),
    ("social_care", social_care),
    ("council", council),
    ("police", police),
    ("school", school),
    ("dwp_decision", dwp_decision),
    ("dwp_service", dwp_service),
    ("dwp", dwp),
    ("hmrc", hmrc),
    ("nhs_trust_scotland", nhs_trust_scotland),
    ("gp_scotland", gp_scotland),
    ("council_scotland", council_scotland),
    ("police_scotland", police_scotland),
    ("social_care_scotland", social_care_scotland),
    ("nhs_trust_wales", nhs_trust_wales),
    ("gp_wales", gp_wales),
    ("council_wales", council_wales),
    ("police_wales", police_wales),
    ("social_care_wales", social_care_wales),
    ("nhs_trust_ni", nhs_trust_ni),
    ("gp_ni", gp_ni),
    ("council_ni", council_ni),
    ("police_ni", police_ni),
    ("social_care_ni", social_care_ni),
    ("other_gov", other_gov) ]

/-- The values of the catalog object, in declaration order. -/
def catalogPathways : List Pathway := PATHWAYS.map (fun e => e.2)

/-- The own-property part of the JavaScript read `PATHWAYS[k]` on the
catalog object literal: the value at the declared key, if any.  The full
read, which also walks the `Object.prototype` chain, is `pathwaysReadJs`
below; for every key that does not name a prototype member the two
coincide. -/
def pathwaysGet (k : String) : Option Pathway :=
  (PATHWAYS.find? (fun e => e.1 == k)).map (fun e => e.2)

/-- Truthiness of a JS value that is a string or `undefined`. -/
def jsTruthy : Option String → Bool
  | none => false
  | some s => !(s == "")

/-- router.js: `{ Scotland: 'scotland', Wales: 'wales', 'Northern Ireland': 'ni' }[nation]`. -/
def nationKey (n : String) : Option String :=
  if n == "Scotland" then some ("scotland")
  else if n == "Wales" then some ("wales")
  else if n == "Northern Ireland" then some ("ni")
  else none

/-- router.js `getPathway`, nation-specific lookup and base/fallback part:
`if (nation && nation !== 'England') { ... }` followed by
`return PATHWAYS[bodyType] || PATHWAYS.other_gov;`. -/
def resolveByNation (bodyType : String) (nation : Option String) : Pathway :=
  let hit : Option Pathway :=
    match nation with
    | none => none
    | some n =>
      if !(n == "") && !(n == "England") then
        match nationKey n with
        | some nk => pathwaysGet (bodyType ++ "_" ++ nk)
        | none => none
      else none
  match hit with
  | some p => p
  | none => (pathwaysGet bodyType).getD other_gov

/-- router.js `getPathway(bodyType, complaintType, nation)`.  The DWP branch
runs first: `if (bodyType === 'dwp' && complaintType)`; a `complaintType`
that is neither `'decision'` nor `'service'` falls through to the nation
logic. -/
def getPathway (bodyType : String) (complaintType nation : Option String) : Pathway :=
  if bodyType == "dwp" && jsTruthy complaintType then
    if complaintType == some ("decision") then dwp_decision
    else if complaintType == some ("service") then dwp_service
    else resolveByNation bodyType nation
  else resolveByNation bodyType nation

/-- The property names a plain JavaScript object literal inherits from
`Object.prototype`; reading any of them on the `PATHWAYS` literal yields
the inherited function (or, for the last entry, the prototype object
itself) — a truthy value that is not a catalog template. -/
def objectPrototypeMembers : List String :=
  [ "constructor", "hasOwnProperty", "isPrototypeOf", "propertyIsEnumerable",
    "toLocaleString", "toString", "valueOf", "__defineGetter__",
    "__defineSetter__", "__lookupGetter__", "__lookupSetter__", "__proto__" ]

/-- `pat` is a suffix of `s` (used to show no `Object.prototype` member can
collide with a nation-suffixed catalog key). -/
def endsWithStr (s pat : String) : Bool :=
  pat.toList.isSuffixOf s.toList

/-- A value produced by the JavaScript property read `PATHWAYS[k]`: an own
catalog entry (a pathway template), a truthy member inherited from
`Object.prototype`, or `undefined`. -/
inductive CatalogRead where
  | tmpl (p : Pathway)
  | protoMember (name : String)
  | undef
deriving DecidableEq

/-- Truthiness of a property-read result: templates and inherited members
are objects/functions, hence truthy; only `undefined` is falsy. -/
def readTruthy : CatalogRead → Bool
  | CatalogRead.undef => false
  | _ => true

/-- The full JavaScript semantics of the property read `PATHWAYS[k]`: the
own property when the key is declared in the literal (`pathwaysGet`), else
the member inherited from `Object.prototype`, else `undefined`. -/
def pathwaysReadJs (k : String) : CatalogRead :=
  match pathwaysGet k with
  | some p => CatalogRead.tmpl p
  | none =>
    if objectPrototypeMembers.contains k then CatalogRead.protoMember k
    else CatalogRead.undef

/-- router.js `getPathway`, nation and base/fallback part, over the full
property-read semantics: `const nationPathway = PATHWAYS[...]; if
(nationPathway) return nationPathway;` then
`return PATHWAYS[bodyType] || PATHWAYS.other_gov;`.  Same structure as
`resolveByNation` above, but keeping the `Object.prototype` reads. -/
def resolveByNationJs (bodyType : String) (nation : Option String) : CatalogRead :=
  let hit : CatalogRead :=
    match nation with
    | none => CatalogRead.undef
    | some n =>
      if !(n == "") && !(n == "England") then
        match nationKey n with
        | some nk => pathwaysReadJs (bodyType ++ "_" ++ nk)
        | none => CatalogRead.undef
      else CatalogRead.undef
  if readTruthy hit then hit
  else if readTruthy (pathwaysReadJs bodyType) then pathwaysReadJs bodyType
  else pathwaysReadJs ("other_gov")

/-- router.js `getPathway` over the full property-read semantics.
`getPathway` above is its restriction to own keys; the two agree whenever
`bodyType` does not name an `Object.prototype` member (proved later), which
covers every concrete body type the application supplies. -/
def getPathwayJs (bodyType : String) (complaintType nation : Option String) : CatalogRead :=
  if bodyType == "dwp" && jsTruthy complaintType then
    if complaintType == some ("decision") then CatalogRead.tmpl dwp_decision
    else if complaintType == some ("service") then CatalogRead.tmpl dwp_service
    else resolveByNationJs bodyType nation
  else resolveByNationJs bodyType nation

/-- router.js keyword class `'ombudsman' || 'phso' || 'lgsco' || 'iopc'`. -/
def ombudsmanKeywords : List String := ["ombudsman", "phso", "lgsco", "iopc"]

/-- router.js keyword class `'formal' || 'written' || 'complained' || 'stage 2' || 'tier 2'`. -/
def formalKeywords : List String := ["formal", "written", "complained", "stage 2", "tier 2"]

/-- router.js keyword class `'pals' || 'spoke' || 'called' || 'mentioned' || 'raised' || 'tried'`. -/
def informalKeywords : List String := ["pals", "spoke", "called", "mentioned", "raised", "tried"]

/-- The `lower.includes(...) || ...` disjunction for the ombudsman class. -/
def classOmbudsman (lower : String) : Bool :=
  ombudsmanKeywords.any (fun kw => strContains lower kw)

/-- The `lower.includes(...) || ...` disjunction for the formal-complaint class. -/
def classFormal (lower : String) : Bool :=
  formalKeywords.any (fun kw => strContains lower kw)

/-- The `lower.includes(...) || ...` disjunction for the informal-contact class. -/
def classInformal (lower : String) : Bool :=
  informalKeywords.any (fun kw => strContains lower kw)

/-- `l` with the step at index `i` marked current
(JS `adjusted.steps[i].current = true`); out-of-range indices leave the
list unchanged (the JS code only ever indexes in range — see below). -/
def setCurrentAt : List Step → Nat → List Step
  | [], _ => []
  | s :: rest, 0 => { s with current := true } :: rest
  | s :: rest, i + 1 => s :: setCurrentAt rest i

/-- The `for (let i = 0; ...)` loop body of router.js `adjustForStepsTaken`,
returning the updated step list and the `foundStep` flag.  The loop reads
`adjusted.steps[i].name` into `stepName` but never uses it; the three class
tests do not depend on `i`, so any match fires at `i = 0` and `break`s.
If `steps` is empty the loop body never runs (matching JS). -/
def adjustScan (lower : String) (steps : List Step) (i : Nat) : List Step × Bool :=
  if h : i < steps.length then
    if classOmbudsman lower then (setCurrentAt steps (steps.length - 1), true)
    else if classFormal lower then
      (if i < steps.length - 1 then setCurrentAt steps (i + 1)
       else setCurrentAt steps i, true)
    else if classInformal lower then
      (if steps.length > 1 then setCurrentAt steps 1
       else setCurrentAt steps 0, true)
    else adjustScan lower steps (i + 1)
  else (steps, false)
termination_by steps.length - i
decreasing_by simp_wf; omega

/-- Condition of the early `return pathway;` of `adjustForStepsTaken`:
`!stepsTaken || stepsTaken.toLowerCase() === 'none' || stepsTaken.toLowerCase() === 'no'`. -/
def trivialStepsText : Option String → Bool
  | none => true
  | some s => s == "" || jsToLowerCase s == "none" || jsToLowerCase s == "no"

/-- Result of `adjustForStepsTaken`.  Lean values are immutable, so the JS
object-identity distinction is recorded in `isClone`: the early branch
executes `return pathway;` — the very argument reference, the shared
catalog object — recorded as `isClone := false`; the other branch returns
a fresh `JSON.parse(JSON.stringify(pathway))` deep clone, recorded as
`isClone := true`. -/
structure AdjustResult where
  pathway : Pathway
  isClone : Bool
deriving DecidableEq

/-- router.js `adjustForStepsTaken(pathway, stepsTaken)`.  After the early
return, the clone has every `current` cleared, the loop may set one step
current, and `if (!foundStep) adjusted.steps[0].current = true;` runs
otherwise.  (On an empty `steps` list that last JS statement would throw;
every catalog template has at least one step, and this embedding makes it
a no-op instead.) -/
def adjustForStepsTaken (pathway : Pathway) (stepsTaken : Option String) : AdjustResult :=
  match stepsTaken with
  | none => { pathway := pathway, isClone := false }
  | some s =>
    if s == "" || jsToLowerCase s == "none" || jsToLowerCase s == "no" then
      { pathway := pathway, isClone := false }
    else
      let lower := jsToLowerCase s
      let cleared := pathway.steps.map (fun t => { t with current := false })
      let scanned := adjustScan lower cleared 0
      let final := if scanned.2 then scanned.1 else setCurrentAt scanned.1 0
      { pathway := { pathway with steps := final }, isClone := true }

/-- Number of steps of `p` whose `current` flag is true. -/
def countCurrent (p : Pathway) : Nat :=
  p.steps.countP (fun s => s.current)

/-- The fields of the extracted-facts record (js/intake.js JSON schema) that
js/chat.js `handleConfirmSummary` and the safeguarding classification read.
Display-only fields (`publicBody`, `issue`, `severity`, ...) are elided. -/
structure Facts where
  bodyType : String
  complaintType : Option String
  nation : Option String
  stepsTaken : Option String
  safeguardingConcern : String
deriving DecidableEq

/-- The js/chat.js module-level state read and written by
`handleConfirmSummary`: `extractedFacts`, `currentPathway`, and — standing
for the `showPathwayCard(currentPathway)` call — the pathway exposed to the
presentation layer. -/
structure ChatState where
  extractedFacts : Option Facts
  currentPathway : Option Pathway
  displayedPathway : Option Pathway
deriving DecidableEq

/-- js/chat.js `handleConfirmSummary` (lines 494-502): on user confirmation
of the summary it resolves a pathway with
`getPathway(extractedFacts.bodyType, extractedFacts.complaintType)` — the
`nation` argument is not passed, hence `undefined` — adjusts it with
`adjustForStepsTaken`, stores it in `currentPathway` and shows it with
`showPathwayCard`.  No field other than `bodyType`, `complaintType` and
`stepsTaken` is read; in particular `safeguardingConcern` is never
consulted. -/
def handleConfirmSummary (st : ChatState) : ChatState :=
  match st.extractedFacts with
  | none => st
  | some facts =>
    let pathway := getPathway facts.bodyType facts.complaintType none
    let adjusted := (adjustForStepsTaken pathway facts.stepsTaken).pathway
    { st with currentPathway := some adjusted, displayedPathway := some adjusted }

/-- JavaScript regular-expression class `\s`, restricted to the ASCII
whitespace characters. -/
def isJsWhitespace (c : Char) : Bool :=
  c == ' ' || c == '\t' || c == '\n' || c == '\x0d' || c == '\x0b' || c == '\x0c'

/-- First index at or after `i` at which `pat` occurs in `l`
(leftmost match of a literal pattern). -/
def findSubFrom (pat : List Char) : List Char → Nat → Option Nat
  | [], i => if pat.isPrefixOf ([] : List Char) then some i else none
  | c :: rest, i =>
    if pat.isPrefixOf (c :: rest) then some i else findSubFrom pat rest (i + 1)

/-- JavaScript `String.prototype.trim`. -/
def jsTrim (s : String) : String :=
  String.mk (((s.toList.dropWhile isJsWhitespace).reverse.dropWhile isJsWhitespace).reverse)

/-- The capture group of js/intake.js
`responseText.match(/` + "```" + `json\s*([\s\S]*?)` + "```" + `/)`.
The overall match must start at the first occurrence of the literal
"```json" (the pattern has no proper border, so occurrences cannot overlap,
and a later occurrence would itself begin with a closing "```" for the
first one); the greedy `\s*` then absorbs the maximal whitespace run (no
backtick is whitespace, so no backtracking can occur), and the lazy capture
ends at the first subsequent "```".  Returns `none` exactly when the regex
does not match `s`. -/
def firstJsonBlock (s : String) : Option String :=
  let cs := s.toList
  let openPat := "```json"
  match findSubFrom openPat.toList cs 0 with
  | none => none
  | some i =>
    let j := i + openPat.length
    let k := j + ((cs.drop j).takeWhile isJsWhitespace).length
    match findSubFrom ("```".toList) (cs.drop k) k with
    | none => none
    | some l => some (String.mk ((cs.drop k).take (l - k)))

/-- js/intake.js `extractFacts(responseText)` (lines 147-162).  The host
builtins are passed in as parameters: `jsonParse` models `JSON.parse` on
the trimmed capture (`none` when it throws), `ecTruthy` models the
truthiness of `parsed.extractionComplete`, and `factsField` models
`parsed.facts` (`some` exactly when that field is truthy, carrying its
value).  Everything else — the regex match, the trim, the early returns
and the `catch` — is embedded concretely. -/
def extractFacts {V F : Type} (jsonParse : String → Option V)
    (ecTruthy : V → Bool) (factsField : V → Option F)
    (responseText : String) : Option F :=
  match firstJsonBlock responseText with
  | none => none
  | some blk =>
    match jsonParse (jsTrim blk) with
    | none => none
    | some parsed => if ecTruthy parsed then factsField parsed else none

/-- A Gregorian calendar date, as manipulated by the JS `Date` code of the
deadline calculator embedded in docs/DPIA.md. -/
structure Date where
  year : Nat
  month : Nat
  day : Nat
deriving DecidableEq

/-- Gregorian leap-year rule. -/
def isLeapYear (y : Nat) : Bool :=
  (y % 4 == 0 && y % 100 != 0) || y % 400 == 0

/-- Days in a month of the Gregorian calendar. -/
def daysInMonth (y m : Nat) : Nat :=
  if m == 2 then (if isLeapYear y then 29 else 28)
  else if m == 4 || m == 6 || m == 9 || m == 11 then 30
  else 31

/-- JS `result.setDate(result.getDate() + 1)`: the next calendar day, with
month and year rollover. -/
def nextDay (d : Date) : Date :=
  if d.day < daysInMonth d.year d.month then { d with day := d.day + 1 }
  else if d.month < 12 then { year := d.year, month := d.month + 1, day := 1 }
  else { year := d.year + 1, month := 1, day := 1 }

/-- Days since 1970-01-01 of a civil date (Gregorian), valid for dates from
1970 on (the holiday calendar covers 2025-2026); standard era/year-of-era
day count. -/
def epochDays (d : Date) : Nat :=
  let y := if d.month ≤ 2 then d.year - 1 else d.year
  let era := y / 400
  let yoe := y - era * 400
  let mp := (d.month + 9) % 12
  let doy := (153 * mp + 2) / 5 + d.day - 1
  let doe := yoe * 365 + yoe / 4 - yoe / 100 + doy
  era * 146097 + doe - 719468

/-- JS `Date.prototype.getDay`: 0 = Sunday, ..., 6 = Saturday
(1970-01-01 was a Thursday, day 4). -/
def getDay (d : Date) : Nat :=
  (epochDays d + 4) % 7

/-- Zero-padded two-digit decimal. -/
def pad2 (n : Nat) : String :=
  if n < 10 then "0" ++ toString n else toString n

/-- JS `result.toISOString().slice(0, 10)`: the `YYYY-MM-DD` form compared
against the holiday table. -/
def toISODateString (d : Date) : String :=
  toString d.year ++ "-" ++ pad2 d.month ++ "-" ++ pad2 d.day

/-- `UK_BANK_HOLIDAYS` of the deadline-calculator code in docs/DPIA.md
(2025-2026), verbatim. -/
def UK_BANK_HOLIDAYS : List String :=
  [ "2025-01-01", "2025-04-18", "2025-04-21", "2025-05-05", "2025-05-26",
    "2025-08-25", "2025-12-25", "2025-12-26",
    "2026-01-01", "2026-04-03", "2026-04-06", "2026-05-04", "2026-05-25",
    "2026-08-31", "2026-12-25", "2026-12-28" ]

/-- The loop condition of `addWorkingDays`: a day increments the counter
when `dayOfWeek !== 0 && dayOfWeek !== 6 && !UK_BANK_HOLIDAYS.includes(dateStr)`. -/
def isCountedDay (d : Date) : Bool :=
  getDay d != 0 && getDay d != 6 && !(UK_BANK_HOLIDAYS.contains (toISODateString d))

/-- The `while (added < days)` loop of `addWorkingDays`, with explicit fuel.
Each iteration advances one calendar day and counts it when it is a working
day. -/
def addWorkingDaysGo : Nat → Nat → Date → Date
  | _, 0, d => d
  | fuel + 1, remaining + 1, d =>
    let d' := nextDay d
    if isCountedDay d' then addWorkingDaysGo fuel remaining d'
    else addWorkingDaysGo fuel (remaining + 1) d'
  | 0, _ + 1, d => d

/-- `addWorkingDays(fromDate, days)` of the deadline-calculator code in
docs/DPIA.md: walk forward one calendar day at a time, counting only days
that are neither Saturday, Sunday, nor a listed holiday, until `days` have
been counted.  Any run of 7 consecutive days contains at least 5
non-weekend days and the holiday table is finite, so a fuel of
`7 * days + 7 * (|UK_BANK_HOLIDAYS| + 1)` always suffices and the
fuel-exhausted case of the helper is unreachable. -/
def addWorkingDays (fromDate : Date) (days : Nat) : Date :=
  addWorkingDaysGo (7 * days + 7 * (UK_BANK_HOLIDAYS.length + 1)) days fromDate

/-- A facts record classified as a crime by the intake layer — the failing
input of the safeguarding-gate claim. -/
def crimeFacts : Facts :=
  { bodyType := "nhs_trust", complaintType := some ("general"),
    nation := some ("England"), stepsTaken := none,
    safeguardingConcern := "crime" }

/-- A Scottish police complaint facts record — the failing input of the
nation-routing claim. -/
def scotlandPoliceFacts : Facts :=
  { bodyType := "police", complaintType := some ("general"),
    nation := some ("Scotland"), stepsTaken := none,
    safeguardingConcern := "none" }

/-- The controller state right after a summary has been produced from the
facts record `f` and before any confirmation: facts stored, no pathway
resolved or displayed yet. -/
def summaryState (f : Facts) : ChatState :=
  { extractedFacts := some f, currentPathway := none, displayedPathway := none }

/-! Helper lemmas about the step-marking primitives. -/

theorem length_setCurrentAt (l : List Step) (i : Nat) :
    (setCurrentAt l i).length = l.length := by
  induction l generalizing i with
  | nil => rfl
  | cons a t ih =>
    cases i with
    | zero => simp [setCurrentAt]
    | succ n => simp [setCurrentAt, ih]

theorem countP_setCurrentAt (l : List Step) (i : Nat) (hi : i < l.length)
    (hall : ∀ s ∈ l, s.current = false) :
    (setCurrentAt l i).countP (fun s => s.current) = 1 := by
  induction l generalizing i with
  | nil => simp at hi
  | cons a t ih =>
    cases i with
    | zero =>
      have ht : t.countP (fun s => s.current) = 0 := by
        apply List.countP_eq_zero.mpr
        intro s hs
        simp [hall s (List.mem_cons_of_mem a hs)]
      simp [setCurrentAt, List.countP_cons, ht]
    | succ n =>
      have ha : a.current = false := hall a (List.mem_cons_self a t)
      have hrec : (setCurrentAt t n).countP (fun s => s.current) = 1 := by
        apply ih n
        · simp at hi; omega
        · exact fun s hs => hall s (List.mem_cons_of_mem a hs)
      simp [setCurrentAt, List.countP_cons, ha, hrec]

theorem get?_setCurrentAt (l : List Step) (i : Nat) (hi : i < l.length) :
    ((setCurrentAt l i).get? i).map (fun s => s.current) = some true := by
  induction l generalizing i with
  | nil => simp at hi
  | cons a t ih =>
    cases i with
    | zero => simp [setCurrentAt]
    | succ n =>
      simp only [setCurrentAt, List.get?_cons_succ]
      apply ih n
      simp at hi; omega

theorem adjustScan_eq_of_no_class (lower : String) (steps : List Step)
    (hA : classOmbudsman lower = false) (hB : classFormal lower = false)
    (hC : classInformal lower = false) :
    ∀ i, adjustScan lower steps i = (steps, false) := by
  have key : ∀ k i, steps.length - i ≤ k → adjustScan lower steps i = (steps, false) := by
    intro k
    induction k with
    | zero =>
      intro i hk
      rw [adjustScan]
      have hni : ¬ i < steps.length := by omega
      simp [hni]
    | succ k ih =>
      intro i hk
      rw [adjustScan]
      by_cases hi : i < steps.length
      · simp only [hi, dif_pos, hA, hB, hC, Bool.false_eq_true, if_false]
        exact ih (i + 1) (by omega)
      · simp [hi]
  exact fun i => key (steps.length - i) i (Nat.le_refl _)

theorem scanned_countP (lower : String) (steps : List Step) (hpos : 0 < steps.length)
    (hall : ∀ t ∈ steps, t.current = false) :
    ((if (adjustScan lower steps 0).2 then (adjustScan lower steps 0).1
      else setCurrentAt (adjustScan lower steps 0).1 0).countP (fun s => s.current)) = 1 := by
  by_cases hA : classOmbudsman lower = true
  · rw [adjustScan]
    simp only [hpos, dif_pos, hA, if_true]
    exact countP_setCurrentAt steps (steps.length - 1) (by omega) hall
  · by_cases hB : classFormal lower = true
    · rw [adjustScan]
      by_cases h1 : 0 < steps.length - 1
      · simp only [hpos, dif_pos, hA, hB, Bool.false_eq_true, if_false, if_true, h1]
        exact countP_setCurrentAt steps 1 (by omega) hall
      · simp only [hpos, dif_pos, hA, hB, Bool.false_eq_true, if_false, if_true, h1]
        exact countP_setCurrentAt steps 0 (by omega) hall
    · by_cases hC : classInformal lower = true
      · rw [adjustScan]
        by_cases h1 : 1 < steps.length
        · simp only [hpos, dif_pos, hA, hB, hC, Bool.false_eq_true, if_false, if_true,
            gt_iff_lt, h1]
          exact countP_setCurrentAt steps 1 (by omega) hall
        · simp only [hpos, dif_pos, hA, hB, hC, Bool.false_eq_true, if_false, if_true,
            gt_iff_lt, h1]
          exact countP_setCurrentAt steps 0 (by omega) hall
      · rw [adjustScan_eq_of_no_class lower steps (by simpa using hA) (by simpa using hB)
          (by simpa using hC) 0]
        simp only [Bool.false_eq_true, if_false]
        exact countP_setCurrentAt steps 0 hpos hall

theorem cleared_all_false (p : Pathway) :
    ∀ t ∈ p.steps.map (fun u => { u with current := false }), t.current = false := by
  intro t ht
  rcases List.mem_map.mp ht with ⟨u, _, rfl⟩
  rfl

theorem adjust_preserves_unique_current (p : Pathway) (h0 : p.steps ≠ [])
    (h1 : countCurrent p = 1) :
    ∀ st : Option String, countCurrent (adjustForStepsTaken p st).pathway = 1 := by
  intro st
  match st with
  | none => exact h1
  | some s =>
    by_cases htriv : (s == "" || jsToLowerCase s == "none" || jsToLowerCase s == "no") = true
    · simpa [adjustForStepsTaken, htriv, countCurrent] using h1
    · have hpos : 0 < (p.steps.map (fun u => { u with current := false })).length := by
        simpa using List.length_pos.mpr h0
      have hcur := scanned_countP (jsToLowerCase s)
        (p.steps.map (fun u => { u with current := false })) hpos (cleared_all_false p)
      simpa [adjustForStepsTaken, htriv, countCurrent] using hcur

theorem catalog_wellformed :
    ∀ p ∈ catalogPathways, p.steps ≠ [] ∧ countCurrent p = 1 := by decide

theorem pathwaysGet_mem {k : String} {p : Pathway} (h : pathwaysGet k = some p) :
    p ∈ catalogPathways := by
  unfold pathwaysGet at h
  cases hf : PATHWAYS.find? (fun e => e.1 == k) with
  | none => rw [hf] at h; simp at h
  | some e =>
    rw [hf] at h
    simp at h
    cases h
    exact List.mem_map_of_mem _ (List.mem_of_find?_eq_some hf)

theorem base_lookup_mem (bt : String) :
    (pathwaysGet bt).getD other_gov ∈ catalogPathways := by
  cases hb : pathwaysGet bt with
  | none => simpa using (by decide : other_gov ∈ catalogPathways)
  | some p => simpa using pathwaysGet_mem hb

theorem resolveByNation_mem (bt : String) (nation : Option String) :
    resolveByNation bt nation ∈ catalogPathways := by
  cases nation with
  | none => exact base_lookup_mem bt
  | some n =>
    unfold resolveByNation
    by_cases hcond : (!(n == "") && !(n == "England")) = true
    · cases hk : nationKey n with
      | none => simp only [hcond, if_true, hk]; exact base_lookup_mem bt
      | some nk =>
        simp only [hcond, if_true, hk]
        cases hg : pathwaysGet (bt ++ "_" ++ nk) with
        | none => simp only [hg]; exact base_lookup_mem bt
        | some p => simp only [hg]; exact pathwaysGet_mem hg
    · simp only [hcond, Bool.false_eq_true, if_false]
      exact base_lookup_mem bt

theorem getPathway_mem (bt : String) (ct nation : Option String) :
    getPathway bt ct nation ∈ catalogPathways := by
  unfold getPathway
  by_cases hd : (bt == "dwp" && jsTruthy ct) = true
  · simp only [hd, if_true]
    by_cases h1 : (ct == some ("decision")) = true
    · simpa [h1] using (by decide : dwp_decision ∈ catalogPathways)
    · by_cases h2 : (ct == some ("service")) = true
      · simpa [h1, h2] using (by decide : dwp_service ∈ catalogPathways)
      · simp only [h1, h2, Bool.false_eq_true, if_false]
        exact resolveByNation_mem bt nation
  · simp only [hd, Bool.false_eq_true, if_false]
    exact resolveByNation_mem bt nation

theorem nation_suffix_assoc (bt nk : String) : bt ++ "_" ++ nk = bt ++ ("_" ++ nk) :=
  String.append_assoc bt "_" nk

theorem resolveByNation_fallback (bt : String) (nation : Option String)
    (h1 : pathwaysGet bt = none) (h2 : pathwaysGet (bt ++ "_scotland") = none)
    (h3 : pathwaysGet (bt ++ "_wales") = none) (h4 : pathwaysGet (bt ++ "_ni") = none) :
    resolveByNation bt nation = other_gov := by
  cases nation with
  | none =>
    show (pathwaysGet bt).getD other_gov = other_gov
    simp [h1]
  | some n =>
    unfold resolveByNation
    by_cases hcond : (!(n == "") && !(n == "England")) = true
    · by_cases hS : (n == "Scotland") = true
      · have hn : n = "Scotland" := eq_of_beq hS
        subst hn
        have h2a : pathwaysGet (bt ++ "_" ++ "scotland") = none := by
          rw [nation_suffix_assoc]; exact h2
        simp [hcond, nationKey, h2a, h1]
      · by_cases hW : (n == "Wales") = true
        · have hn : n = "Wales" := eq_of_beq hW
          subst hn
          have h3a : pathwaysGet (bt ++ "_" ++ "wales") = none := by
            rw [nation_suffix_assoc]; exact h3
          simp [hcond, nationKey, h3a, h1]
        · by_cases hN : (n == "Northern Ireland") = true
          · have hn : n = "Northern Ireland" := eq_of_beq hN
            subst hn
            have h4a : pathwaysGet (bt ++ "_" ++ "ni") = none := by
              rw [nation_suffix_assoc]; exact h4
            simp [hcond, nationKey, h4a, h1]
          · have hk : nationKey n = none := by
              unfold nationKey
              simp [hS, hW, hN]
            simp [hcond, hk, h1]
    · simp [hcond, h1]

theorem mem_of_containsStr {l : List String} {a : String}
    (h : l.contains a = true) : a ∈ l := by
  have h' : l.elem a = true := h
  exact List.elem_iff.mp h'

theorem not_mem_of_not_containsStr {l : List String} {a : String}
    (h : l.contains a = false) : a ∉ l := by
  intro hm
  have h' : l.elem a = true := List.elem_iff.mpr hm
  rw [show l.contains a = l.elem a from rfl, h'] at h
  cases h

theorem endsWithStr_append (a b : String) : endsWithStr (a ++ b) b = true := by
  unfold endsWithStr
  rw [show ((a ++ b).toList) = a.toList ++ b.toList from rfl]
  exact (List.isSuffixOf_iff_suffix).mpr (List.suffix_append a.toList b.toList)

theorem proto_members_no_nation_key (bt nk : String)
    (h : nk = "scotland" ∨ nk = "wales" ∨ nk = "ni") :
    objectPrototypeMembers.contains (bt ++ "_" ++ nk) = false := by
  cases hc : objectPrototypeMembers.contains (bt ++ "_" ++ nk)
  · rfl
  · exfalso
    have hmem : (bt ++ "_" ++ nk) ∈ objectPrototypeMembers := mem_of_containsStr hc
    have hsufx : endsWithStr (bt ++ "_" ++ nk) ("_" ++ nk) = true := by
      rw [String.append_assoc]
      exact endsWithStr_append bt ("_" ++ nk)
    have hany : objectPrototypeMembers.any (fun m => endsWithStr m ("_" ++ nk)) = true :=
      List.any_eq_true.mpr ⟨_, hmem, hsufx⟩
    rcases h with h|h|h <;> subst h <;> exact absurd hany (by decide)

theorem nationKey_spec (n nk : String) (h : nationKey n = some nk) :
    nk = "scotland" ∨ nk = "wales" ∨ nk = "ni" := by
  unfold nationKey at h
  split_ifs at h
  · exact Or.inl (Option.some.inj h).symm
  · exact Or.inr (Or.inl (Option.some.inj h).symm)
  · exact Or.inr (Or.inr (Option.some.inj h).symm)

theorem baseRead_agrees (bt : String)
    (hbt : objectPrototypeMembers.contains bt = false) :
    (if readTruthy (pathwaysReadJs bt) then pathwaysReadJs bt
     else pathwaysReadJs ("other_gov")) =
      CatalogRead.tmpl ((pathwaysGet bt).getD other_gov) := by
  cases hg : pathwaysGet bt with
  | some p =>
    have hr : pathwaysReadJs bt = CatalogRead.tmpl p := by
      simp [pathwaysReadJs, hg]
    simp [hr, readTruthy, hg]
  | none =>
    have hr : pathwaysReadJs bt = CatalogRead.undef := by
      simp [pathwaysReadJs, hg, not_mem_of_not_containsStr hbt]
    have hog : pathwaysReadJs ("other_gov") = CatalogRead.tmpl other_gov := by decide
    simp [hr, readTruthy, hg, hog]

theorem resolveByNationJs_hit_undef (bt : String) (nation : Option String)
    (hsc : pathwaysReadJs (bt ++ "_" ++ "scotland") = CatalogRead.undef)
    (hwl : pathwaysReadJs (bt ++ "_" ++ "wales") = CatalogRead.undef)
    (hni : pathwaysReadJs (bt ++ "_" ++ "ni") = CatalogRead.undef) :
    resolveByNationJs bt nation =
      (if readTruthy (pathwaysReadJs bt) then pathwaysReadJs bt
       else pathwaysReadJs ("other_gov")) := by
  cases nation with
  | none => simp [resolveByNationJs, readTruthy]
  | some n =>
    by_cases hcond : (!(n == "") && !(n == "England")) = true
    · by_cases hS : (n == "Scotland") = true
      · have hn : n = "Scotland" := eq_of_beq hS
        subst hn
        simp [resolveByNationJs, hcond, nationKey, hsc, readTruthy]
      · by_cases hW : (n == "Wales") = true
        · have hn : n = "Wales" := eq_of_beq hW
          subst hn
          simp [resolveByNationJs, hcond, nationKey, hwl, readTruthy]
        · by_cases hN : (n == "Northern Ireland") = true
          · have hn : n = "Northern Ireland" := eq_of_beq hN
            subst hn
            simp [resolveByNationJs, hcond, nationKey, hni, readTruthy]
          · have hk : nationKey n = none := by
              unfold nationKey
              simp [hS, hW, hN]
            simp [resolveByNationJs, hcond, hk, readTruthy]
    · simp [resolveByNationJs, hcond, readTruthy]

theorem resolveByNationJs_agrees (bt : String) (nation : Option String)
    (hbt : objectPrototypeMembers.contains bt = false) :
    resolveByNationJs bt nation = CatalogRead.tmpl (resolveByNation bt nation) := by
  have hb := baseRead_agrees bt hbt
  cases nation with
  | none => simpa [resolveByNationJs, resolveByNation, readTruthy] using hb
  | some n =>
    by_cases hcond : (!(n == "") && !(n == "England")) = true
    · cases hk : nationKey n with
      | none => simpa [resolveByNationJs, resolveByNation, hcond, hk, readTruthy] using hb
      | some nk =>
        have hnk3 := nationKey_spec n nk hk
        cases hg : pathwaysGet (bt ++ "_" ++ nk) with
        | some p =>
          have hr : pathwaysReadJs (bt ++ "_" ++ nk) = CatalogRead.tmpl p := by
            simp [pathwaysReadJs, hg]
          simp [resolveByNationJs, resolveByNation, hcond, hk, hg, hr, readTruthy]
        | none =>
          have hnc := proto_members_no_nation_key bt nk hnk3
          have hr : pathwaysReadJs (bt ++ "_" ++ nk) = CatalogRead.undef := by
            simp [pathwaysReadJs, hg, not_mem_of_not_containsStr hnc]
          simpa [resolveByNationJs, resolveByNation, hcond, hk, hg, hr, readTruthy] using hb
    · simpa [resolveByNationJs, resolveByNation, hcond, readTruthy] using hb

theorem getPathwayJs_agrees (bt : String) (ct nation : Option String)
    (hbt : objectPrototypeMembers.contains bt = false) :
    getPathwayJs bt ct nation = CatalogRead.tmpl (getPathway bt ct nation) := by
  unfold getPathwayJs getPathway
  by_cases hd : (bt == "dwp" && jsTruthy ct) = true
  · simp only [hd, if_true]
    by_cases h1 : (ct == some ("decision")) = true
    · simp [h1]
    · by_cases h2 : (ct == some ("service")) = true
      · simp [h1, h2]
      · simp only [h1, h2, Bool.false_eq_true, if_false]
        exact resolveByNationJs_agrees bt nation hbt
  · simp only [hd, Bool.false_eq_true, if_false]
    exact resolveByNationJs_agrees bt nation hbt

theorem proto_nation_lookup_none (bt : String) (hbt : bt ∈ objectPrototypeMembers)
    (nk : String) (hnk : nk = "scotland" ∨ nk = "wales" ∨ nk = "ni") :
    pathwaysReadJs (bt ++ "_" ++ nk) = CatalogRead.undef := by
  have hget : pathwaysGet (bt ++ "_" ++ nk) = none := by
    simp only [objectPrototypeMembers, List.mem_cons, List.mem_singleton,
      List.not_mem_nil, or_false] at hbt
    rcases hnk with h|h|h <;> subst h <;>
      rcases hbt with h'|h'|h'|h'|h'|h'|h'|h'|h'|h'|h'|h' <;> subst h' <;> decide
  have hnc : objectPrototypeMembers.contains (bt ++ "_" ++ nk) = false :=
    proto_members_no_nation_key bt nk hnk
  simp [pathwaysReadJs, hget, not_mem_of_not_containsStr hnc]

theorem getPathway_fallback_own (bt : String) (ct nation : Option String)
    (h1 : pathwaysGet bt = none) (h2 : pathwaysGet (bt ++ "_scotland") = none)
    (h3 : pathwaysGet (bt ++ "_wales") = none) (h4 : pathwaysGet (bt ++ "_ni") = none) :
    getPathway bt ct nation = other_gov := by
  have hbd : (bt == "dwp") = false := by
    cases hbe : bt == "dwp"
    · rfl
    · exfalso
      have h : bt = "dwp" := eq_of_beq hbe
      rw [h] at h1
      exact absurd h1 (by decide)
  unfold getPathway
  simp only [hbd, Bool.false_and, Bool.false_eq_true, if_false]
  exact resolveByNation_fallback bt nation h1 h2 h3 h4

theorem adjust_result_of_classA (p : Pathway) (s : String)
    (hA : classOmbudsman (jsToLowerCase s) = true) (h0 : p.steps ≠ []) :
    adjustForStepsTaken p (some s) =
      { pathway := { p with steps := (setCurrentAt
          (p.steps.map (fun u => { u with current := false }))
          ((p.steps.map (fun u => { u with current := false })).length - 1)) },
        isClone := true } := by
  have hne : (s == "") = false := by
    cases hse : s == ""
    · rfl
    · exfalso
      have h : s = "" := eq_of_beq hse
      subst h
      exact absurd hA (by decide)
  have hnone : (jsToLowerCase s == "none") = false := by
    cases hse : jsToLowerCase s == "none"
    · rfl
    · exfalso
      have he : jsToLowerCase s = "none" := eq_of_beq hse
      rw [he] at hA
      exact absurd hA (by decide)
  have hno : (jsToLowerCase s == "no") = false := by
    cases hse : jsToLowerCase s == "no"
    · rfl
    · exfalso
      have he : jsToLowerCase s = "no" := eq_of_beq hse
      rw [he] at hA
      exact absurd hA (by decide)
  have hpos : 0 < (p.steps.map (fun u => { u with current := false })).length := by
    simpa using List.length_pos.mpr h0
  unfold adjustForStepsTaken
  simp only [hne, hnone, hno, Bool.or_self, Bool.false_or, Bool.false_eq_true, if_false]
  rw [adjustScan]
  simp only [hpos, dif_pos, hA, if_true]

/-- C9: for every template with at least two steps and every stepsTaken
string containing an ombudsman-class keyword together with formal- and/or
informal-class keywords, `adjustForStepsTaken` marks the last step of the
pathway as current (and no other): the ombudsman class is checked first
inside the loop and wins. -/
theorem ombudsman_class_takes_priority (p : Pathway) (s : String)
    (h2 : 2 ≤ p.steps.length)
    (hA : classOmbudsman (jsToLowerCase s) = true)
    (_hBC : classFormal (jsToLowerCase s) = true ∨ classInformal (jsToLowerCase s) = true) :
    (adjustForStepsTaken p (some s)).pathway.steps.length = p.steps.length ∧
    ((adjustForStepsTaken p (some s)).pathway.steps.get? (p.steps.length - 1)).map
      (fun t => t.current) = some true ∧
    countCurrent (adjustForStepsTaken p (some s)).pathway = 1 := by
  have h0 : p.steps ≠ [] := by
    intro h
    rw [h] at h2
    simp at h2
  rw [adjust_result_of_classA p s hA h0]
  set cleared := p.steps.map (fun u => { u with current := false }) with hcl
  have hlen : cleared.length = p.steps.length := by simp [hcl]
  refine ⟨?_, ?_, ?_⟩
  · show (setCurrentAt cleared (cleared.length - 1)).length = p.steps.length
    rw [length_setCurrentAt, hlen]
  · show ((setCurrentAt cleared (cleared.length - 1)).get? (p.steps.length - 1)).map
      (fun t => t.current) = some true
    rw [← hlen]
    exact get?_setCurrentAt cleared (cleared.length - 1) (by omega)
  · show (setCurrentAt cleared (cleared.length - 1)).countP (fun t => t.current) = 1
    exact countP_setCurrentAt cleared (cleared.length - 1) (by omega)
      (hcl ▸ cleared_all_false p)

/-- Witness for C9 at the catalog template `nhs_trust` and a string holding
keywords of all three classes. -/
theorem ombudsman_class_takes_priority_witness :
    2 ≤ nhs_trust.steps.length ∧
    classOmbudsman (jsToLowerCase ("i called pals and complained to the phso ombudsman")) = true ∧
    classFormal (jsToLowerCase ("i called pals and complained to the phso ombudsman")) = true ∧
    ((adjustForStepsTaken nhs_trust
        (some ("i called pals and complained to the phso ombudsman"))).pathway.steps.get?
      (nhs_trust.steps.length - 1)).map (fun t => t.current) = some true ∧
    countCurrent (adjustForStepsTaken nhs_trust
      (some ("i called pals and complained to the phso ombudsman"))).pathway = 1 := by
  have h := ombudsman_class_takes_priority nhs_trust
    ("i called pals and complained to the phso ombudsman") (by decide) (by decide)
    (Or.inl (by decide))
  exact ⟨by decide, by decide, by decide, h.2.1, h.2.2⟩

/-- C2: for every pathway template in the catalog and every stepsTaken
input (absent, empty, "none"/"no", unmatched, or adversarial multi-class
strings), the pathway returned by `adjustForStepsTaken` has exactly one
step whose current flag is true. -/
theorem catalog_adjust_exactly_one_current :
    ∀ p ∈ catalogPathways, ∀ st : Option String,
      countCurrent (adjustForStepsTaken p st).pathway = 1 := by
  intro p hp st
  have hw := catalog_wellformed p hp
  exact adjust_preserves_unique_current p hw.1 hw.2 st

/-- Witness for C2 at the catalog template `nhs_trust` and an adversarial
string matching several keyword classes. -/
theorem catalog_adjust_exactly_one_current_witness :
    nhs_trust ∈ catalogPathways ∧
    countCurrent (adjustForStepsTaken nhs_trust
      (some ("i spoke to them, wrote a written complaint and tried the ombudsman"))).pathway = 1 :=
  ⟨by decide, catalog_adjust_exactly_one_current nhs_trust (by decide)
    (some ("i spoke to them, wrote a written complaint and tried the ombudsman"))⟩

/-- C4, counterexample: on the input "none" the claim "adjustForStepsTaken
returns a deep copy, never the shared catalog object itself" fails — the
early branch executes `return pathway;`, handing back the shared catalog
template (recorded as `isClone = false`), not a copy. -/
theorem adjust_trivial_input_returns_shared_template :
    (adjustForStepsTaken nhs_trust (some ("none"))).isClone = false := rfl

/-- C4, amended: `adjustForStepsTaken` returns a fresh deep clone exactly
when the stepsTaken text is present, non-empty and not "none"/"no"
(case-insensitively); in the remaining trivial cases it returns the shared
template itself, unchanged, still carrying the template's default current
step. -/
theorem adjust_clone_exactly_on_nontrivial_input (p : Pathway) (st : Option String) :
    ((adjustForStepsTaken p st).isClone = false ↔ trivialStepsText st = true) ∧
    (trivialStepsText st = true → (adjustForStepsTaken p st).pathway = p) := by
  match st with
  | none => exact ⟨by simp [adjustForStepsTaken, trivialStepsText], fun _ => rfl⟩
  | some s =>
    by_cases h : (s == "" || jsToLowerCase s == "none" || jsToLowerCase s == "no") = true
    · constructor
      · simp [adjustForStepsTaken, trivialStepsText, h]
      · intro _
        simp [adjustForStepsTaken, h]
    · constructor
      · simp [adjustForStepsTaken, trivialStepsText, h]
      · intro htr
        exact absurd htr h

/-- Witness for the amended C4 at the catalog template `gp` and the trivial
input "no". -/
theorem adjust_clone_exactly_on_nontrivial_input_witness :
    (adjustForStepsTaken gp (some ("no"))).isClone = false ∧
    (adjustForStepsTaken gp (some ("no"))).pathway = gp :=
  ⟨(adjust_clone_exactly_on_nontrivial_input gp (some ("no"))).1.mpr (by decide),
   (adjust_clone_exactly_on_nontrivial_input gp (some ("no"))).2 (by decide)⟩

/-- C5: the business-day addition of the deadline calculator, whose holiday
table lists 2025-04-18 (Good Friday) and 2025-04-21 (Easter Monday), sends
(2025-04-17, 1 working day) to 2025-04-22, skipping the two holidays and
the weekend. -/
theorem addWorkingDays_easter_2025 :
    UK_BANK_HOLIDAYS.contains ("2025-04-18") = true ∧
    UK_BANK_HOLIDAYS.contains ("2025-04-21") = true ∧
    addWorkingDays { year := 2025, month := 4, day := 17 } 1 =
      { year := 2025, month := 4, day := 22 } :=
  ⟨by decide, by decide, by decide⟩

/-- C6: `getPathway('dwp', 'decision', nation)` returns the DWP
decision-challenge template and `getPathway('dwp', 'service', nation)` the
DWP service template, for every nation value including absent — the DWP
branch returns before the nation logic is reached. -/
theorem dwp_pathways_ignore_nation (nation : Option String) :
    getPathway ("dwp") (some ("decision")) nation = dwp_decision ∧
    getPathway ("dwp") (some ("service")) nation = dwp_service :=
  ⟨rfl, rfl⟩

/-- C7: `getPathway('police', undefined, 'Scotland')` resolves the
Scotland-specific police template (catalog key police_scotland) and
`getPathway('police', undefined, 'England')` the base police template. -/
theorem police_nation_specific_resolution :
    getPathway ("police") none (some ("Scotland")) = police_scotland ∧
    getPathway ("police") none (some ("England")) = police :=
  ⟨rfl, rfl⟩

/-- C8, counterexample: the claim "getPathway returns some pathway template
for every input triple, with other_gov as the result whenever no template
exists for the bodyType" fails at bodyType "toString" — a key with no
catalog entry at all — because the property read `PATHWAYS['toString']`
finds the truthy `toString` member inherited from `Object.prototype`, so
the `|| other_gov` fallback never fires and the resolver hands back a value
that is not a pathway template. -/
theorem resolver_proto_key_counterexample :
    pathwaysGet ("toString") = none ∧
    getPathwayJs ("toString") none none = CatalogRead.protoMember ("toString") ∧
    getPathwayJs ("toString") none none ≠ CatalogRead.tmpl other_gov :=
  ⟨by decide, by decide, by decide⟩

/-- C8, amended: for every input triple whose bodyType does not name an
`Object.prototype` member, the resolver never fails and returns a template
of the catalog — the generic other_gov fallback when neither the base key
nor any nation-suffixed key exists; for a bodyType that names an
`Object.prototype` member and has no catalog entry, the read returns the
truthy inherited member, the fallback never fires, and the result is that
non-template value. -/
theorem resolver_total_with_fallback_amended (bt : String) (ct nation : Option String) :
    (objectPrototypeMembers.contains bt = false →
      getPathwayJs bt ct nation = CatalogRead.tmpl (getPathway bt ct nation) ∧
      getPathway bt ct nation ∈ catalogPathways) ∧
    ((objectPrototypeMembers.contains bt = false ∧ pathwaysGet bt = none ∧
      pathwaysGet (bt ++ "_scotland") = none ∧ pathwaysGet (bt ++ "_wales") = none ∧
      pathwaysGet (bt ++ "_ni") = none) →
      getPathwayJs bt ct nation = CatalogRead.tmpl other_gov) ∧
    ((pathwaysGet bt = none ∧ objectPrototypeMembers.contains bt = true) →
      getPathwayJs bt ct nation = CatalogRead.protoMember bt) := by
  refine ⟨?_, ?_, ?_⟩
  · intro hbt
    exact ⟨getPathwayJs_agrees bt ct nation hbt, getPathway_mem bt ct nation⟩
  · rintro ⟨hbt, h1, h2, h3, h4⟩
    rw [getPathwayJs_agrees bt ct nation hbt,
      getPathway_fallback_own bt ct nation h1 h2 h3 h4]
  · rintro ⟨h1, h2⟩
    have hmem : bt ∈ objectPrototypeMembers := mem_of_containsStr h2
    have hsc := proto_nation_lookup_none bt hmem ("scotland") (Or.inl rfl)
    have hwl := proto_nation_lookup_none bt hmem ("wales") (Or.inr (Or.inl rfl))
    have hnio := proto_nation_lookup_none bt hmem ("ni") (Or.inr (Or.inr rfl))
    have hbd : (bt == "dwp") = false := by
      cases hbe : bt == "dwp"
      · rfl
      · exfalso
        have h : bt = "dwp" := eq_of_beq hbe
        rw [h] at h1
        exact absurd h1 (by decide)
    have hread : pathwaysReadJs bt = CatalogRead.protoMember bt := by
      simp [pathwaysReadJs, h1, hmem]
    unfold getPathwayJs
    simp only [hbd, Bool.false_and, Bool.false_eq_true, if_false]
    rw [resolveByNationJs_hit_undef bt nation hsc hwl hnio, hread]
    rfl

/-- Witness for the amended C8: the benign unknown body type "quango" falls
back to other_gov, while the prototype-member key "toString" escapes the
fallback and yields the inherited member. -/
theorem resolver_total_with_fallback_amended_witness :
    objectPrototypeMembers.contains ("quango") = false ∧
    getPathwayJs ("quango") none (some ("Scotland")) = CatalogRead.tmpl other_gov ∧
    getPathwayJs ("toString") none (some ("England")) = CatalogRead.protoMember ("toString") :=
  ⟨by decide,
   (resolver_total_with_fallback_amended ("quango") none (some ("Scotland"))).2.1
     ⟨by decide, by decide, by decide, by decide, by decide⟩,
   (resolver_total_with_fallback_amended ("toString") none (some ("England"))).2.2
     ⟨by decide, by decide⟩⟩

/-- C10: `extractFacts` is total and returns the embedded facts object
exactly when the first ```json fenced block of the response parses (the
`JSON.parse` builtin is the `jsonParse` parameter) with truthy
`extractionComplete` and truthy `facts` fields; in every other case — no
block, unclosed or malformed block, missing or falsy fields — it returns
null. -/
theorem extractFacts_characterization {V F : Type} (jsonParse : String → Option V)
    (ecTruthy : V → Bool) (factsField : V → Option F) (s : String) (f : F) :
    extractFacts jsonParse ecTruthy factsField s = some f ↔
      ∃ blk parsed, firstJsonBlock s = some blk ∧
        jsonParse (jsTrim blk) = some parsed ∧
        ecTruthy parsed = true ∧ factsField parsed = some f := by
  unfold extractFacts
  cases hb : firstJsonBlock s with
  | none => simp
  | some blk =>
    cases hp : jsonParse (jsTrim blk) with
    | none => simp [hp]
    | some parsed =>
      by_cases he : ecTruthy parsed = true
      · simp [hp, he]
      · simp [hp, he]

/-- C1, code evaluated at the failing input: js/chat.js has no safeguarding
gate — `handleConfirmSummary` on a facts record with
`safeguardingConcern = 'crime'` resolves a PathwayInstance, stores it and
exposes it via `showPathwayCard`, and the same happens for every other
concern value: the field is never read, so the claimed unconditional
rejection of the summary-to-pathway transition does not exist in the
code. -/
theorem safeguarding_gate_absent_on_confirm :
    crimeFacts.safeguardingConcern = "crime" ∧
    (handleConfirmSummary (summaryState crimeFacts)).currentPathway = some nhs_trust ∧
    (handleConfirmSummary (summaryState crimeFacts)).displayedPathway = some nhs_trust ∧
    ∀ concern : String,
      (handleConfirmSummary (summaryState
        { crimeFacts with safeguardingConcern := concern })).displayedPathway =
        some nhs_trust :=
  ⟨rfl, rfl, rfl, fun _ => rfl⟩

/-- C3, code evaluated at the failing input: js/chat.js calls
`getPathway(extractedFacts.bodyType, extractedFacts.complaintType)` without
the nation argument, so a Scottish police complaint resolves the England
base template, although the resolver, given the nation, would return the
Scotland-specific template. -/
theorem nation_dropped_on_confirm :
    scotlandPoliceFacts.nation = some ("Scotland") ∧
    (handleConfirmSummary (summaryState scotlandPoliceFacts)).currentPathway = some police ∧
    getPathway scotlandPoliceFacts.bodyType scotlandPoliceFacts.complaintType
      scotlandPoliceFacts.nation = police_scotland ∧
    police ≠ police_scotland :=
  ⟨rfl, rfl, rfl, by decide⟩

end Navigator
